import Mathlib

/-!
Verification development for the BookToAudiobook voice-assignment engine
(`src/book_to_audiobook.py`).  The Python classes `TTSEngine`,
`DeepSeekAnalyzer._simple_analysis` and `BookToAudiobook.convert` are
shallowly embedded as pure Lean functions: the engine's mutable dictionaries
(`character_voice_assignments`, `character_gender_cache`) become an explicit
`EngineState` record threaded through every call, and `random.choice` becomes
an explicit stream of indices carried in the state.
-/

namespace BookToAudiobook

/-- A text segment as produced by the analyzer: a dict with keys
`type`, optional `character`, optional `gender`, `text`, `voice`. -/
structure Segment where
  type : String
  character : Option String
  gender : Option String
  text : String
  voice : String
deriving DecidableEq, Repr

/-- The `character_voices` sub-dictionary of the TTS configuration.
`overrides` models the string-valued entries of the dict (per-character
voice overrides, including the `default` key). -/
structure CVConfig where
  overrides : List (String × String)
  character_genders : List (String × String)
  random_assignment : Bool
  available_chinese_voices : List String
  male_voices : List String
  female_voices : List String
deriving DecidableEq, Repr

/-- The `tts` section of the configuration, with the `gender_pitch_adjustment`
sub-dictionary flattened into the `gpa_*` fields. -/
structure TTSConfig where
  narrator_voice : String
  character_voices : CVConfig
  pitch : String
  gpa_enabled : Bool
  gpa_male_pitch : String
  gpa_female_pitch : String
  gpa_default_pitch : String
deriving DecidableEq, Repr

/-- Mutable state of a `TTSEngine` instance during one run:
`character_voice_assignments`, `character_gender_cache`, and an explicit
stream of indices standing in for the random number generator consumed by
`random.choice`. -/
structure EngineState where
  assignments : List (String × String)
  genderCache : List (String × String)
  rng : List Nat
deriving DecidableEq, Repr

/-- The engine state at the start of a run: both caches empty. -/
def initState (rng : List Nat) : EngineState :=
  { assignments := [], genderCache := [], rng := rng }

/-- Dictionary lookup on an association list (Python `d[k]` / `k in d`). -/
def lookupStr (l : List (String × String)) (k : String) : Option String :=
  match l with
  | [] => none
  | (a, b) :: t => if a = k then some b else lookupStr t k

/-- Dictionary assignment `d[k] = v`: replaces the binding of `k` if present,
otherwise appends it. -/
def setKey (l : List (String × String)) (k v : String) : List (String × String) :=
  match l with
  | [] => [(k, v)]
  | (a, b) :: t => if a = k then (k, v) :: t else (a, b) :: setKey t k v

/-- Python substring test `p in s` on character lists. -/
def occursIn (p : List Char) : List Char → Bool
  | [] => p.isEmpty
  | c :: t => p.isPrefixOf (c :: t) || occursIn p t

/-- Python substring test `p in s` on strings. -/
def strContains (s p : String) : Bool :=
  occursIn p.toList s.toList

/-- Model of `random.choice l`: consume one index from the stream and pick
`l[k % len l]`.  Only ever applied to non-empty lists, mirroring the source. -/
def randChoice (rng : List Nat) (l : List String) : String × List Nat :=
  match rng with
  | [] => (l.getD 0 "", [])
  | k :: rest => (l.getD (k % l.length) "", rest)

/-- The fixed female-indicative name fragments of
`TTSEngine.get_character_gender` (source line 378). -/
def female_patterns : List String :=
  ["芳", "玲", "娜", "婷", "娟", "丽", "敏", "静", "燕", "红",
   "秀", "英", "梅", "花", "兰", "玉", "珍", "芬", "萍"]

/-- The fixed male-indicative name fragments of
`TTSEngine.get_character_gender` (source line 379). -/
def male_patterns : List String :=
  ["强", "伟", "刚", "勇", "军", "杰", "涛", "明", "建", "平",
   "波", "峰", "龙", "虎", "雄", "斌", "浩", "宇", "飞"]

/-- Step 1 of `get_character_gender`: the segment's `gender` field counts as
an explicit hint only when it is exactly `male` or `female`. -/
def validHint (seg : Option Segment) : Option String :=
  match seg with
  | none => none
  | some s =>
    match s.gender with
    | none => none
    | some g => if g = "male" ∨ g = "female" then some g else none

/-- Embedding of `TTSEngine.get_character_gender` (source lines 355-394).
Returns the gender string together with the updated engine state. -/
def get_character_gender (cfg : TTSConfig) (st : EngineState) (name : String)
    (seg : Option Segment) : String × EngineState :=
  match validHint seg with
  | some g => (g, { st with genderCache := setKey st.genderCache name g })
  | none =>
    match lookupStr st.genderCache name with
    | some g => (g, st)
    | none =>
      match lookupStr cfg.character_voices.character_genders name with
      | some g => (g, { st with genderCache := setKey st.genderCache name g })
      | none =>
        let g :=
          if female_patterns.any (fun p => strContains name p) then "female"
          else if male_patterns.any (fun p => strContains name p) then "male"
          else "male"
        (g, { st with genderCache := setKey st.genderCache name g })

/-- Pick a voice from a pool with `random.choice` and record the assignment
(`self.character_voice_assignments[character] = selected_voice`). -/
def pickAssign (st : EngineState) (character : String) (pool : List String) :
    String × EngineState :=
  let v := (randChoice st.rng pool).1
  (v, { st with rng := (randChoice st.rng pool).2,
                assignments := setKey st.assignments character v })

/-- Step 6 of `get_voice_for_segment`: the configured default voice
(`character_voices_config.get('default', 'zh-CN-YunxiNeural')`), recorded in
the assignment map. -/
def assignDefault (cfg : TTSConfig) (st : EngineState) (character : String) :
    String × EngineState :=
  let dv := (lookupStr cfg.character_voices.overrides "default").getD "zh-CN-YunxiNeural"
  (dv, { st with assignments := setKey st.assignments character dv })

/-- Step 5 of `get_voice_for_segment`: random fallback over the general pool
minus the narrator voice, narrowed to not-yet-assigned voices, reverting to
the un-narrowed candidates when the narrowing empties; falls through to the
default voice when the random path is unavailable. -/
def randomOrDefault (cfg : TTSConfig) (st : EngineState) (character : String) :
    String × EngineState :=
  let cvc := cfg.character_voices
  if cvc.random_assignment = true ∧ cvc.available_chinese_voices ≠ [] then
    let candidates := cvc.available_chinese_voices.filter
      (fun v => decide (v ≠ cfg.narrator_voice))
    let assigned := st.assignments.map Prod.snd
    let avail := candidates.filter (fun v => decide (v ∉ assigned))
    let finalc := if avail = [] then candidates else avail
    if finalc ≠ [] then pickAssign st character finalc
    else assignDefault cfg st character
  else assignDefault cfg st character

/-- Steps 3-6 of `get_voice_for_segment`: infer the gender, try the
gender-specific pools, then the random fallback, then the default voice. -/
def inferAndAssign (cfg : TTSConfig) (st : EngineState) (seg : Segment)
    (character : String) : String × EngineState :=
  let cvc := cfg.character_voices
  let g := (get_character_gender cfg st character (some seg)).1
  let st1 := (get_character_gender cfg st character (some seg)).2
  if g = "male" ∧ cvc.male_voices ≠ [] then pickAssign st1 character cvc.male_voices
  else if g = "female" ∧ cvc.female_voices ≠ [] then pickAssign st1 character cvc.female_voices
  else randomOrDefault cfg st1 character

/-- Step 2 of `get_voice_for_segment`: return the cached assignment when
present, otherwise assign a fresh voice. -/
def cachedOrAssign (cfg : TTSConfig) (st : EngineState) (seg : Segment)
    (character : String) : String × EngineState :=
  match lookupStr st.assignments character with
  | some v => (v, st)
  | none => inferAndAssign cfg st seg character

/-- The step 1 guard of `get_voice_for_segment` (source line 407): the
per-character voice override applies when the configuration has a
string-valued entry for the character that is not the literal `default`. -/
def overrideVoice (cfg : TTSConfig) (character : String) : Option String :=
  match lookupStr cfg.character_voices.overrides character with
  | some v => if v = "default" then none else some v
  | none => none

/-- Embedding of `TTSEngine.get_voice_for_segment` (source lines 396-463). -/
def get_voice_for_segment (cfg : TTSConfig) (st : EngineState) (seg : Segment) :
    String × EngineState :=
  if seg.type = "narrator" then (cfg.narrator_voice, st)
  else
    let character := seg.character.getD "default"
    match overrideVoice cfg character with
    | some v => (v, st)
    | none => cachedOrAssign cfg st seg character

/-- Embedding of `TTSEngine.get_pitch_for_segment` (source lines 465-502). -/
def get_pitch_for_segment (cfg : TTSConfig) (st : EngineState) (seg : Segment)
    (voice : String) : String × EngineState :=
  if cfg.gpa_enabled = false then (cfg.pitch, st)
  else if seg.type = "narrator" then (cfg.pitch, st)
  else
    let character := seg.character.getD "default"
    let g := (get_character_gender cfg st character (some seg)).1
    let st1 := (get_character_gender cfg st character (some seg)).2
    let vg :=
      if voice ∈ cfg.character_voices.male_voices then "male"
      else if voice ∈ cfg.character_voices.female_voices then "female"
      else "unknown"
    if vg = g then (cfg.pitch, st1)
    else if g = "male" then (cfg.gpa_male_pitch, st1)
    else if g = "female" then (cfg.gpa_female_pitch, st1)
    else (cfg.gpa_default_pitch, st1)

/-- The engine-state effect of `TTSEngine.synthesize_segment` on one segment
(source lines 504-544): resolve the voice, then the pitch, then — when pitch
adjustment is enabled, the segment is a character segment and the adjusted
pitch differs from the base pitch — one more `get_character_gender` call made
for the log line (source line 525, called without a segment argument).
Returns the (voice, pitch) pair handed to the synthesis collaborator. -/
def synthStep (cfg : TTSConfig) (st : EngineState) (seg : Segment) :
    (String × String) × EngineState :=
  let v := (get_voice_for_segment cfg st seg).1
  let st1 := (get_voice_for_segment cfg st seg).2
  let p := (get_pitch_for_segment cfg st1 seg v).1
  let st2 := (get_pitch_for_segment cfg st1 seg v).2
  if cfg.gpa_enabled = true ∧ seg.type = "character" ∧ p ≠ cfg.pitch then
    ((v, p), (get_character_gender cfg st2 (seg.character.getD "unknown") none).2)
  else ((v, p), st2)

/-- Fold of `synthStep` over a list of segments: the engine state after
synthesizing them in order. -/
def synthRun (cfg : TTSConfig) (st : EngineState) : List Segment → EngineState
  | [] => st
  | seg :: rest => synthRun cfg (synthStep cfg st seg).2 rest

/-- The quotation-mark character class of the fallback segmenter's dialogue
pattern (source line 293): an ASCII double quote and the CJK corner brackets. -/
def quoteChars : List Char := ['\"', '「', '」', '『', '』']

/-- Python `str.strip()` on a character list. -/
def stripChars (l : List Char) : List Char :=
  ((l.dropWhile Char.isWhitespace).reverse.dropWhile Char.isWhitespace).reverse

/-- A narrator segment of the fallback segmenter, emitted only when the
stripped text is non-empty. -/
def mkNarrator (l : List Char) : List Segment :=
  let t := stripChars l
  if t = [] then []
  else [{ type := "narrator", character := none, gender := none,
          text := String.mk t, voice := "narrator" }]

/-- A character segment of the fallback segmenter (character name `unknown`),
emitted only when the stripped dialogue text is non-empty. -/
def mkCharacter (l : List Char) : List Segment :=
  let t := stripChars l
  if t = [] then []
  else [{ type := "character", character := some "unknown", gender := none,
          text := String.mk t, voice := "character_unknown" }]

/-- Scan for the closing quote of the lazy group `(.+?)`: returns the group
characters up to (excluding) the first quote-class character, and the rest of
the line after that closer; `none` when no closer exists. -/
def splitClose : List Char → Option (List Char × List Char)
  | [] => none
  | c :: t =>
    if c ∈ quoteChars then some ([], t)
    else
      match splitClose t with
      | some (g, r) => some (c :: g, r)
      | none => none

/-- One left-to-right pass of the fallback segmenter over a line, mirroring
`re.finditer` with the dialogue pattern plus the narrator bookkeeping of
`_simple_analysis`: `acc` holds the characters since the end of the previous
match.  A match starts at a quote-class character followed by a non-empty lazy
group closed by the next quote-class character.  `fuel` bounds the recursion
and is unreachable when initialized to the line length plus one. -/
def scanLine (fuel : Nat) (acc : List Char) (s : List Char) : List Segment :=
  match fuel with
  | 0 => []
  | fuel + 1 =>
    match s with
    | [] => mkNarrator acc
    | c :: rest =>
      if c ∈ quoteChars then
        match rest with
        | [] => scanLine fuel (acc ++ [c]) []
        | g1 :: t =>
          match splitClose t with
          | some (gex, r) =>
            mkNarrator acc ++ mkCharacter (g1 :: gex) ++ scanLine fuel [] r
          | none => scanLine fuel (acc ++ [c]) rest
      else scanLine fuel (acc ++ [c]) rest

/-- Python `text.split('\n')` on a character list. -/
def splitLines : List Char → List (List Char)
  | [] => [[]]
  | c :: t =>
    match splitLines t with
    | [] => [[]]
    | h :: r => if c = '\n' then [] :: h :: r else (c :: h) :: r

/-- Embedding of `DeepSeekAnalyzer._simple_analysis` (source lines 282-338):
split into lines, strip each, skip empty lines, and segment each remaining
line into interleaved narrator and character(`unknown`) segments. -/
def simple_analysis (text : String) : List Segment :=
  ((splitLines text.toList).map (fun line =>
    let l := stripChars line
    if l = [] then [] else scanLine (l.length + 1) [] l)).foldr (· ++ ·) []

/-- The artifact file name of segment `i` in `TTSEngine.synthesize_all`
(zero-padding of the index elided). -/
def segmentFile (i : Nat) : String :=
  "segment_" ++ toString i ++ ".mp3"

/-- Embedding of the loop of `TTSEngine.synthesize_all` (source lines
546-564) from index `i`: the success or failure of the external synthesis
call for segment `i` is supplied by the oracle `ok`; a failed segment is
skipped, a successful one contributes its artifact path; the engine state is
mutated by `synthStep` either way. -/
def synthAllGo (cfg : TTSConfig) (ok : Nat → Bool) :
    Nat → EngineState → List Segment → List String × EngineState
  | _, st, [] => ([], st)
  | i, st, seg :: rest =>
    let st1 := (synthStep cfg st seg).2
    let files := (synthAllGo cfg ok (i + 1) st1 rest).1
    (if ok i then segmentFile i :: files else files,
     (synthAllGo cfg ok (i + 1) st1 rest).2)

/-- Embedding of `TTSEngine.synthesize_all` started at index 0 on a fresh
run. -/
def synthesize_all (cfg : TTSConfig) (ok : Nat → Bool) (st : EngineState)
    (segs : List Segment) : List String × EngineState :=
  synthAllGo cfg ok 0 st segs

/-- Embedding of the synthesis and merge phases of `BookToAudiobook.convert`
(source lines 666-693), with the analyzer's output supplied as `segs`, the
external synthesis collaborator as the oracle `ok`, the random stream as
`rng`, and the external muxer's result as `mergeOk`.  Returns the run result
together with whether the merge step was invoked (an output file is produced
only on that path). -/
def convert (cfg : TTSConfig) (ok : Nat → Bool) (rng : List Nat)
    (segs : List Segment) (mergeOk : Bool) : Bool × Bool :=
  let files := (synthesize_all cfg ok (initState rng) segs).1
  if files = [] then (false, false)
  else (mergeOk, true)

/-- The default TTS configuration of `Config.get_default_config`
(source lines 103-132). -/
def defaultTTSConfig : TTSConfig :=
  { narrator_voice := "zh-CN-XiaoxiaoNeural"
    character_voices :=
      { overrides := [("default", "zh-CN-YunxiNeural")]
        character_genders := []
        random_assignment := true
        available_chinese_voices :=
          ["zh-CN-XiaoxiaoNeural", "zh-CN-YunxiNeural",
           "zh-CN-YunyangNeural", "zh-CN-XiaoyiNeural"]
        male_voices := ["zh-CN-YunxiNeural", "zh-CN-YunyangNeural"]
        female_voices := ["zh-CN-XiaoxiaoNeural", "zh-CN-XiaoyiNeural"] }
    pitch := "+0Hz"
    gpa_enabled := true
    gpa_male_pitch := "-10Hz"
    gpa_female_pitch := "+10Hz"
    gpa_default_pitch := "+0Hz" }

/-- The voice a character name denotes in a given engine state: the static
per-character override when one applies, otherwise the recorded assignment.
Auxiliary notion used to track voice stability across a run. -/
def resolvedVoice (cfg : TTSConfig) (st : EngineState) (n : String) : Option String :=
  match overrideVoice cfg n with
  | some v => some v
  | none => lookupStr st.assignments n

/-- Restatement of the claimed voice gender classification: male if the
voice is in the male pool, female if in the female pool, else unknown. -/
def spec_voice_gender_class (cfg : TTSConfig) (voice : String) : String :=
  if voice ∈ cfg.character_voices.male_voices then "male"
  else if voice ∈ cfg.character_voices.female_voices then "female"
  else "unknown"

/-- Restatement of the claimed pitch rule for a character segment with
inferred gender `charGender` given voice `voice`, to be compared with
`get_pitch_for_segment`. -/
def spec_character_pitch (cfg : TTSConfig) (charGender voice : String) : String :=
  if spec_voice_gender_class cfg voice = charGender then cfg.pitch
  else if charGender = "male" then cfg.gpa_male_pitch
  else if charGender = "female" then cfg.gpa_female_pitch
  else cfg.gpa_default_pitch

/-- A character segment for the 小明 stability run. -/
def segC2 : Segment :=
  { type := "character", character := some "小明", gender := none, text := "走吧", voice := "" }

/-- An interleaved narrator segment for the stability run. -/
def segC2n : Segment :=
  { type := "narrator", character := none, gender := none, text := "他点头", voice := "" }

/-- A two-voice configuration whose general pool contains the narrator voice:
the pool has as many entries as the run has characters, yet the random
fallback can only ever use the single non-narrator voice. -/
def cfgC5 : TTSConfig :=
  { narrator_voice := "N"
    character_voices :=
      { overrides := []
        character_genders := []
        random_assignment := true
        available_chinese_voices := ["N", "A"]
        male_voices := []
        female_voices := [] }
    pitch := "+0Hz"
    gpa_enabled := true
    gpa_male_pitch := "-10Hz"
    gpa_female_pitch := "+10Hz"
    gpa_default_pitch := "+0Hz" }

/-- First character segment of the two-character run on `cfgC5`. -/
def segC5a : Segment :=
  { type := "character", character := some "甲", gender := none, text := "来", voice := "" }

/-- Second character segment of the two-character run on `cfgC5`. -/
def segC5b : Segment :=
  { type := "character", character := some "乙", gender := none, text := "去", voice := "" }

/-- A three-voice variant of `cfgC5` whose candidate pool is large enough for
the narrowing step to stay non-empty. -/
def cfgC5w : TTSConfig :=
  { narrator_voice := "N"
    character_voices :=
      { overrides := []
        character_genders := []
        random_assignment := true
        available_chinese_voices := ["N", "A", "B"]
        male_voices := []
        female_voices := [] }
    pitch := "+0Hz"
    gpa_enabled := true
    gpa_male_pitch := "-10Hz"
    gpa_female_pitch := "+10Hz"
    gpa_default_pitch := "+0Hz" }

/-- An engine state in which character 甲 already holds voice `A`. -/
def stC5w : EngineState :=
  { assignments := [("甲", "A")], genderCache := [], rng := [0] }

/-- A configuration with a non-`default` voice configured under the
`default` key of `character_voices`. -/
def cfgC9 : TTSConfig :=
  { narrator_voice := "zh-CN-XiaoxiaoNeural"
    character_voices :=
      { overrides := [("default", "zh-CN-YunyangNeural")]
        character_genders := []
        random_assignment := true
        available_chinese_voices := []
        male_voices := []
        female_voices := [] }
    pitch := "+0Hz"
    gpa_enabled := true
    gpa_male_pitch := "-10Hz"
    gpa_female_pitch := "+10Hz"
    gpa_default_pitch := "+0Hz" }

/-- A character segment carrying no `character` field. -/
def segC9 : Segment :=
  { type := "character", character := none, gender := none, text := "谁", voice := "" }

/-- The default configuration with gender pitch adjustment disabled. -/
def cfgC6d : TTSConfig :=
  { defaultTTSConfig with gpa_enabled := false }

/-- A character segment with a female-pattern name, used to exercise the
gender/voice mismatch pitch path. -/
def segC6 : Segment :=
  { type := "character", character := some "小芳", gender := none, text := "好", voice := "" }

/-- A two-voice configuration whose general pool contains the narrator voice,
with empty gender pools, forcing the random fallback path. -/
def cfgC1 : TTSConfig :=
  { narrator_voice := "N"
    character_voices :=
      { overrides := []
        character_genders := []
        random_assignment := true
        available_chinese_voices := ["N", "A"]
        male_voices := []
        female_voices := [] }
    pitch := "+0Hz"
    gpa_enabled := true
    gpa_male_pitch := "-10Hz"
    gpa_female_pitch := "+10Hz"
    gpa_default_pitch := "+0Hz" }

/-- A character segment for the random fallback path on `cfgC1`. -/
def segC1 : Segment :=
  { type := "character", character := some "丁", gender := none, text := "嗯", voice := "" }

theorem lookupStr_setKey_self (l : List (String × String)) (k v : String) :
    lookupStr (setKey l k v) k = some v := by
  induction l with
  | nil => simp [setKey, lookupStr]
  | cons hd t ih =>
    obtain ⟨a, b⟩ := hd
    by_cases h : a = k
    · simp [setKey, h, lookupStr]
    · simp [setKey, h, lookupStr, ih]

theorem lookupStr_setKey_ne (l : List (String × String)) (k v a : String)
    (h : a ≠ k) : lookupStr (setKey l k v) a = lookupStr l a := by
  induction l with
  | nil => simp [setKey, lookupStr, Ne.symm h]
  | cons hd t ih =>
    obtain ⟨x, y⟩ := hd
    by_cases hx : x = k
    · subst hx
      simp [setKey, lookupStr, Ne.symm h]
    · by_cases ha : x = a
      · simp [setKey, hx, lookupStr, ha, h]
      · simp [setKey, hx, lookupStr, ha, ih]

theorem lookupStr_mem_snd (l : List (String × String)) (k v : String)
    (h : lookupStr l k = some v) : v ∈ l.map Prod.snd := by
  induction l with
  | nil => simp [lookupStr] at h
  | cons hd t ih =>
    obtain ⟨a, b⟩ := hd
    by_cases ha : a = k
    · simp [lookupStr, ha] at h
      simp [h]
    · simp [lookupStr, ha] at h
      simp [ih h]

theorem randChoice_mem (rng : List Nat) (l : List String) (h : l ≠ []) :
    (randChoice rng l).1 ∈ l := by
  have hlen : 0 < l.length := List.length_pos.mpr h
  cases rng with
  | nil =>
    have h0 : (randChoice [] l).1 = l.getD 0 "" := rfl
    rw [h0, List.getD_eq_getElem l "" hlen]
    exact List.getElem_mem hlen
  | cons k rest =>
    have hm : k % l.length < l.length := Nat.mod_lt _ hlen
    have h0 : (randChoice (k :: rest) l).1 = l.getD (k % l.length) "" := rfl
    rw [h0, List.getD_eq_getElem l "" hm]
    exact List.getElem_mem hm

theorem gender_assignments (cfg : TTSConfig) (st : EngineState) (n : String)
    (seg : Option Segment) :
    (get_character_gender cfg st n seg).2.assignments = st.assignments := by
  unfold get_character_gender
  split <;> try rfl
  split <;> try rfl
  split <;> rfl

theorem gender_rng (cfg : TTSConfig) (st : EngineState) (n : String)
    (seg : Option Segment) :
    (get_character_gender cfg st n seg).2.rng = st.rng := by
  unfold get_character_gender
  split <;> try rfl
  split <;> try rfl
  split <;> rfl

theorem pitch_assignments (cfg : TTSConfig) (st : EngineState) (seg : Segment)
    (voice : String) :
    (get_pitch_for_segment cfg st seg voice).2.assignments = st.assignments := by
  unfold get_pitch_for_segment
  dsimp only
  split
  · rfl
  · split
    · rfl
    · have h := gender_assignments cfg st (seg.character.getD "default") (some seg)
      repeat' split
      all_goals exact h

theorem pickAssign_assignments (st : EngineState) (ch : String) (pool : List String) :
    (pickAssign st ch pool).2.assignments =
      setKey st.assignments ch (pickAssign st ch pool).1 := rfl

theorem assignDefault_assignments (cfg : TTSConfig) (st : EngineState) (ch : String) :
    (assignDefault cfg st ch).2.assignments =
      setKey st.assignments ch (assignDefault cfg st ch).1 := rfl

theorem randomOrDefault_assignments (cfg : TTSConfig) (st : EngineState) (ch : String) :
    (randomOrDefault cfg st ch).2.assignments =
      setKey st.assignments ch (randomOrDefault cfg st ch).1 := by
  unfold randomOrDefault
  dsimp only
  repeat' split
  all_goals rfl

theorem inferAndAssign_assignments (cfg : TTSConfig) (st : EngineState) (seg : Segment)
    (ch : String) :
    (inferAndAssign cfg st seg ch).2.assignments =
      setKey st.assignments ch (inferAndAssign cfg st seg ch).1 := by
  unfold inferAndAssign
  dsimp only
  have hg := gender_assignments cfg st ch (some seg)
  repeat' split
  all_goals simp only [pickAssign_assignments, randomOrDefault_assignments, hg]

theorem get_voice_preserves (cfg : TTSConfig) (st : EngineState) (seg : Segment)
    (n v : String) (h : lookupStr st.assignments n = some v) :
    lookupStr (get_voice_for_segment cfg st seg).2.assignments n = some v := by
  unfold get_voice_for_segment
  dsimp only
  split
  · exact h
  · cases ho : overrideVoice cfg (seg.character.getD "default") with
    | some w => simp only [ho]; exact h
    | none =>
      simp only [ho]
      unfold cachedOrAssign
      cases hc : lookupStr st.assignments (seg.character.getD "default") with
      | some u => simp only [hc]; exact h
      | none =>
        simp only [hc]
        rw [inferAndAssign_assignments]
        have hne : n ≠ seg.character.getD "default" := by
          intro he
          rw [← he, h] at hc
          exact Option.noConfusion hc
        rw [lookupStr_setKey_ne _ _ _ _ hne]
        exact h

theorem synthStep_fst (cfg : TTSConfig) (st : EngineState) (seg : Segment) :
    (synthStep cfg st seg).1.1 = (get_voice_for_segment cfg st seg).1 := by
  unfold synthStep
  dsimp only
  split <;> rfl

theorem synthStep_preserves (cfg : TTSConfig) (st : EngineState) (seg : Segment)
    (n v : String) (h : lookupStr st.assignments n = some v) :
    lookupStr (synthStep cfg st seg).2.assignments n = some v := by
  unfold synthStep
  dsimp only
  split
  · rw [gender_assignments, pitch_assignments]
    exact get_voice_preserves cfg st seg n v h
  · rw [pitch_assignments]
    exact get_voice_preserves cfg st seg n v h

theorem synthRun_preserves (cfg : TTSConfig) (n v : String) (mid : List Segment)
    (st : EngineState) (h : lookupStr st.assignments n = some v) :
    lookupStr (synthRun cfg st mid).assignments n = some v := by
  induction mid generalizing st with
  | nil => exact h
  | cons seg rest ih => exact ih _ (synthStep_preserves cfg st seg n v h)

theorem resolvedVoice_eq_of_assignments (cfg : TTSConfig) (n : String)
    (st st' : EngineState) (h : st.assignments = st'.assignments) :
    resolvedVoice cfg st n = resolvedVoice cfg st' n := by
  unfold resolvedVoice
  cases ho : overrideVoice cfg n <;> simp only [ho, h]

theorem resolved_after (cfg : TTSConfig) (st : EngineState) (seg : Segment) (n : String)
    (h1 : seg.type ≠ "narrator") (hn : seg.character.getD "default" = n) :
    resolvedVoice cfg (get_voice_for_segment cfg st seg).2 n =
      some (get_voice_for_segment cfg st seg).1 := by
  unfold get_voice_for_segment resolvedVoice
  dsimp only
  rw [hn, if_neg h1]
  cases ho : overrideVoice cfg n with
  | some w => simp only [ho]
  | none =>
    simp only [ho]
    unfold cachedOrAssign
    cases hc : lookupStr st.assignments n with
    | some u => simp [hc]
    | none =>
      simp only [hc]
      rw [inferAndAssign_assignments, lookupStr_setKey_self]

theorem resolved_return (cfg : TTSConfig) (st : EngineState) (seg : Segment) (n v : String)
    (h1 : seg.type ≠ "narrator") (hn : seg.character.getD "default" = n)
    (h : resolvedVoice cfg st n = some v) :
    (get_voice_for_segment cfg st seg).1 = v := by
  unfold resolvedVoice at h
  unfold get_voice_for_segment
  dsimp only
  rw [hn, if_neg h1]
  cases ho : overrideVoice cfg n with
  | some w =>
    simp only [ho, Option.some.injEq] at h
    simp only [ho]
    exact h
  | none =>
    simp only [ho] at h
    unfold cachedOrAssign
    simp only [h]

theorem synthStep_resolved (cfg : TTSConfig) (st : EngineState) (seg : Segment) (n : String)
    (h1 : seg.type ≠ "narrator") (hn : seg.character.getD "default" = n) :
    resolvedVoice cfg (synthStep cfg st seg).2 n = some (synthStep cfg st seg).1.1 := by
  rw [synthStep_fst]
  unfold synthStep
  dsimp only
  split
  · rw [resolvedVoice_eq_of_assignments cfg n _ (get_voice_for_segment cfg st seg).2
      ((gender_assignments _ _ _ _).trans (pitch_assignments _ _ _ _))]
    exact resolved_after cfg st seg n h1 hn
  · rw [resolvedVoice_eq_of_assignments cfg n _ (get_voice_for_segment cfg st seg).2
      (pitch_assignments _ _ _ _)]
    exact resolved_after cfg st seg n h1 hn

theorem resolved_synthRun (cfg : TTSConfig) (n v : String) (mid : List Segment)
    (st : EngineState) (h : resolvedVoice cfg st n = some v) :
    resolvedVoice cfg (synthRun cfg st mid) n = some v := by
  unfold resolvedVoice at h ⊢
  cases ho : overrideVoice cfg n with
  | some w => simp only [ho] at h ⊢; exact h
  | none =>
    simp only [ho] at h ⊢
    exact synthRun_preserves cfg n v mid st h

/-- C2: within one run, any two `get_voice_for_segment` calls on character
segments with the same effective character name return the identical voice:
after the first segment's full synthesis step and any interleaved synthesis
steps, the name still resolves to the voice returned first. -/
theorem C2_voice_stability (cfg : TTSConfig) (st0 : EngineState) (seg1 seg2 : Segment)
    (mid : List Segment) (n : String)
    (h1 : seg1.type ≠ "narrator") (h2 : seg2.type ≠ "narrator")
    (hn1 : seg1.character.getD "default" = n) (hn2 : seg2.character.getD "default" = n) :
    (get_voice_for_segment cfg (synthRun cfg (synthStep cfg st0 seg1).2 mid) seg2).1 =
      (get_voice_for_segment cfg st0 seg1).1 := by
  have hres := synthStep_resolved cfg st0 seg1 n h1 hn1
  rw [synthStep_fst] at hres
  exact resolved_return cfg _ seg2 n _ h2 hn2
    (resolved_synthRun cfg n _ mid _ hres)

/-- Witness for C2: the character 小明 in two segments separated by a
narrator segment receives the same voice under the default configuration. -/
theorem C2_voice_stability_witness :
    (get_voice_for_segment defaultTTSConfig
        (synthRun defaultTTSConfig
          (synthStep defaultTTSConfig (initState [1, 0, 3]) segC2).2 [segC2n]) segC2).1 =
      (get_voice_for_segment defaultTTSConfig (initState [1, 0, 3]) segC2).1 :=
  C2_voice_stability defaultTTSConfig (initState [1, 0, 3]) segC2 segC2 [segC2n] "小明"
    (by decide) (by decide) (by decide) (by decide)

/-- C3 counterexample: the gender cache is not write-once under hints.  The
name 阿Q is first cached as `male` (default inference); a later call whose
segment carries the explicit hint `female` returns `female` and overwrites
the cached entry. -/
theorem C3_counterexample :
    (get_character_gender defaultTTSConfig (initState []) "阿Q" none).1 = "male" ∧
    lookupStr (get_character_gender defaultTTSConfig (initState []) "阿Q" none).2.genderCache
      "阿Q" = some "male" ∧
    (get_character_gender defaultTTSConfig
        (get_character_gender defaultTTSConfig (initState []) "阿Q" none).2 "阿Q"
        (some { type := "character", character := some "阿Q", gender := some "female",
                text := "哼", voice := "" })).1 = "female" ∧
    lookupStr (get_character_gender defaultTTSConfig
        (get_character_gender defaultTTSConfig (initState []) "阿Q" none).2 "阿Q"
        (some { type := "character", character := some "阿Q", gender := some "female",
                text := "哼", voice := "" })).2.genderCache "阿Q" = some "female" := by
  decide

/-- C3 amended: the gender cache is stable only against calls without a valid
explicit hint — such a call returns the cached gender and leaves the state
unchanged; a later segment with an explicit `male`/`female` hint overwrites
the cache. -/
theorem C3_gender_cache_stable_without_hint (cfg : TTSConfig) (st : EngineState)
    (n g : String) (seg : Option Segment)
    (hh : validHint seg = none) (hc : lookupStr st.genderCache n = some g) :
    get_character_gender cfg st n seg = (g, st) := by
  unfold get_character_gender
  simp only [hh, hc]

/-- Witness for the amended C3: a cached gender is returned unchanged by a
hint-free call. -/
theorem C3_gender_cache_stable_without_hint_witness :
    get_character_gender defaultTTSConfig
        { assignments := [], genderCache := [("某", "female")], rng := [] } "某" none =
      ("female", { assignments := [], genderCache := [("某", "female")], rng := [] }) :=
  C3_gender_cache_stable_without_hint defaultTTSConfig
    { assignments := [], genderCache := [("某", "female")], rng := [] } "某" "female" none
    rfl rfl

/-- C4: with no explicit hint, no cache entry and no configured override,
gender is inferred from the fixed fragment lists — any female fragment as a
substring gives `female` (regardless of male fragments), else any male
fragment gives `male`, else the default `male` — and the result is written
into the gender cache before returning. -/
theorem C4_pattern_inference (cfg : TTSConfig) (st : EngineState) (n : String)
    (seg : Option Segment) (hh : validHint seg = none)
    (hc : lookupStr st.genderCache n = none)
    (ho : lookupStr cfg.character_voices.character_genders n = none) :
    get_character_gender cfg st n seg =
      (if female_patterns.any (fun p => strContains n p) then "female"
       else if male_patterns.any (fun p => strContains n p) then "male"
       else "male",
       { st with genderCache := (setKey st.genderCache n
          (if female_patterns.any (fun p => strContains n p) then "female"
           else if male_patterns.any (fun p => strContains n p) then "male"
           else "male")) }) := by
  unfold get_character_gender
  simp only [hh, hc, ho]

/-- Witness for C4: 梅龙 contains both a female fragment (梅) and a male
fragment (龙) and is classified `female`, with the cache updated. -/
theorem C4_pattern_inference_witness :
    strContains "梅龙" "梅" = true ∧ strContains "梅龙" "龙" = true ∧
    get_character_gender defaultTTSConfig (initState []) "梅龙" none =
      ("female", { assignments := [], genderCache := [("梅龙", "female")], rng := [] }) :=
  ⟨by decide, by decide,
    C4_pattern_inference defaultTTSConfig (initState []) "梅龙" none rfl rfl rfl⟩

/-- C7: the rule-based fallback segmenter splits the line 他说："你好，世界。"
into exactly a narrator segment 他说： followed by a character(`unknown`)
segment 你好，世界。. -/
theorem C7_fallback_scenario :
    simple_analysis "他说：\"你好，世界。\"" =
      [{ type := "narrator", character := none, gender := none, text := "他说：",
         voice := "narrator" },
       { type := "character", character := some "unknown", gender := none,
         text := "你好，世界。", voice := "character_unknown" }] := by
  decide

/-- C9: a character segment with no `character` field uses the name
`default`; when the character-voices configuration maps `default` to a voice
other than the literal `default`, the override branch returns that voice
directly and leaves the engine state untouched (no gender inference, no
voice-assignment cache write). -/
theorem C9_default_override (cfg : TTSConfig) (st : EngineState) (seg : Segment)
    (v : String) (ht : seg.type = "character") (hc : seg.character = none)
    (ho : lookupStr cfg.character_voices.overrides "default" = some v)
    (hv : v ≠ "default") :
    get_voice_for_segment cfg st seg = (v, st) := by
  unfold get_voice_for_segment overrideVoice
  rw [ht, hc]
  simp only [Option.getD_none, ho]
  rw [if_neg (show ¬("character" = "narrator") by decide), if_neg hv]

/-- Witness for C9: a configuration mapping `default` to `zh-CN-YunyangNeural`
returns that voice for a character segment without a `character` field. -/
theorem C9_default_override_witness :
    get_voice_for_segment cfgC9 (initState []) segC9 =
      ("zh-CN-YunyangNeural", initState []) :=
  C9_default_override cfgC9 (initState []) segC9 "zh-CN-YunyangNeural" rfl rfl rfl
    (by decide)

/-- C10: a narrator segment is processed without touching the engine state —
`get_voice_for_segment` returns the configured narrator voice and
`get_pitch_for_segment` the configured base pitch, both leaving the gender
cache and the voice-assignment map (the whole state) unchanged. -/
theorem C10_narrator_frame (cfg : TTSConfig) (st : EngineState) (seg : Segment)
    (voice : String) (h : seg.type = "narrator") :
    get_voice_for_segment cfg st seg = (cfg.narrator_voice, st) ∧
    get_pitch_for_segment cfg st seg voice = (cfg.pitch, st) := by
  constructor
  · unfold get_voice_for_segment
    rw [if_pos h]
  · unfold get_pitch_for_segment
    simp [h]

/-- Witness for C10: a concrete narrator segment under the default
configuration. -/
theorem C10_narrator_frame_witness :
    get_voice_for_segment defaultTTSConfig (initState [5]) segC2n =
      (defaultTTSConfig.narrator_voice, initState [5]) ∧
    get_pitch_for_segment defaultTTSConfig (initState [5]) segC2n "zh-CN-YunxiNeural" =
      (defaultTTSConfig.pitch, initState [5]) :=
  C10_narrator_frame defaultTTSConfig (initState [5]) segC2n "zh-CN-YunxiNeural" rfl

theorem filter_base_ne_nil {l : List String} {p : String → Bool}
    (h : l.filter p ≠ []) : l ≠ [] := by
  intro h0
  rw [h0] at h
  exact h rfl

theorem get_voice_random_path (cfg : TTSConfig) (st : EngineState) (seg : Segment)
    (n : String)
    (h1 : seg.type ≠ "narrator") (hn : seg.character.getD "default" = n)
    (hov : overrideVoice cfg n = none)
    (hcache : lookupStr st.assignments n = none)
    (hm : cfg.character_voices.male_voices = [])
    (hf : cfg.character_voices.female_voices = []) :
    get_voice_for_segment cfg st seg =
      randomOrDefault cfg (get_character_gender cfg st n (some seg)).2 n := by
  unfold get_voice_for_segment
  dsimp only
  rw [hn, if_neg h1]
  simp only [hov]
  unfold cachedOrAssign
  simp only [hcache]
  unfold inferAndAssign
  dsimp only
  rw [hm, hf]
  rw [if_neg (fun hF => hF.2 rfl :
    ¬((get_character_gender cfg st n (some seg)).1 = "male" ∧ ([] : List String) ≠ []))]
  rw [if_neg (fun hF => hF.2 rfl :
    ¬((get_character_gender cfg st n (some seg)).1 = "female" ∧ ([] : List String) ≠ []))]

theorem randomOrDefault_ne_narrator (cfg : TTSConfig) (st : EngineState) (ch : String)
    (hra : cfg.character_voices.random_assignment = true)
    (hcand : cfg.character_voices.available_chinese_voices.filter
        (fun v => decide (v ≠ cfg.narrator_voice)) ≠ []) :
    (randomOrDefault cfg st ch).1 ≠ cfg.narrator_voice := by
  unfold randomOrDefault
  dsimp only
  rw [if_pos (And.intro hra (filter_base_ne_nil hcand))]
  by_cases hav : (cfg.character_voices.available_chinese_voices.filter
      (fun v => decide (v ≠ cfg.narrator_voice))).filter
      (fun v => decide (v ∉ st.assignments.map Prod.snd)) = []
  · rw [if_pos hav, if_pos hcand]
    have hmem := randChoice_mem st.rng _ hcand
    have := (List.mem_filter.mp hmem).2
    exact of_decide_eq_true this
  · rw [if_neg hav, if_pos hav]
    have hmem := randChoice_mem st.rng _ hav
    have hmem2 := List.mem_of_mem_filter hmem
    have := (List.mem_filter.mp hmem2).2
    exact of_decide_eq_true this

theorem randomOrDefault_fresh (cfg : TTSConfig) (st : EngineState) (ch : String)
    (hra : cfg.character_voices.random_assignment = true)
    (hav : (cfg.character_voices.available_chinese_voices.filter
        (fun v => decide (v ≠ cfg.narrator_voice))).filter
        (fun v => decide (v ∉ st.assignments.map Prod.snd)) ≠ []) :
    (randomOrDefault cfg st ch).1 ∉ st.assignments.map Prod.snd := by
  unfold randomOrDefault
  dsimp only
  rw [if_pos (And.intro hra (filter_base_ne_nil (filter_base_ne_nil hav)))]
  rw [if_neg hav, if_pos hav]
  have hmem := randChoice_mem st.rng _ hav
  have := (List.mem_filter.mp hmem).2
  exact of_decide_eq_true this

/-- C1 counterexample: under the default configuration (where the narrator
voice 晓晓 is also in the female pool), the female-named character 小芳 is
assigned the narrator voice through the female-pool branch. -/
theorem C1_counterexample :
    ({ type := "character", character := some "小芳", gender := none, text := "你好",
       voice := "" } : Segment).type = "character" ∧
    (get_voice_for_segment defaultTTSConfig (initState [0])
        { type := "character", character := some "小芳", gender := none, text := "你好",
          voice := "" }).1 = defaultTTSConfig.narrator_voice := by
  decide

/-- C1 amended: the narrator voice is excluded from character voices only on
the random fallback path — whenever a character segment resolves through it
(no applicable override, no cached assignment, empty gender pools, random
assignment enabled, and some non-narrator voice in the general pool), the
returned voice differs from the narrator voice.  Gender-pool selection,
overrides, cached assignments and the default voice carry no such guarantee. -/
theorem C1_random_fallback_excludes_narrator (cfg : TTSConfig) (st : EngineState)
    (seg : Segment) (n : String)
    (h1 : seg.type ≠ "narrator") (hn : seg.character.getD "default" = n)
    (hov : overrideVoice cfg n = none)
    (hcache : lookupStr st.assignments n = none)
    (hm : cfg.character_voices.male_voices = [])
    (hf : cfg.character_voices.female_voices = [])
    (hra : cfg.character_voices.random_assignment = true)
    (hcand : cfg.character_voices.available_chinese_voices.filter
        (fun v => decide (v ≠ cfg.narrator_voice)) ≠ []) :
    (get_voice_for_segment cfg st seg).1 ≠ cfg.narrator_voice := by
  rw [get_voice_random_path cfg st seg n h1 hn hov hcache hm hf]
  exact randomOrDefault_ne_narrator cfg _ n hra hcand

/-- Witness for the amended C1: on a pool containing only the narrator voice
and one other voice, the random fallback returns the other voice. -/
theorem C1_random_fallback_excludes_narrator_witness :
    (get_voice_for_segment cfgC1 (initState [0]) segC1).1 ≠ cfgC1.narrator_voice :=
  C1_random_fallback_excludes_narrator cfgC1 (initState [0]) segC1 "丁"
    (by decide) rfl rfl rfl rfl rfl rfl (by decide)

/-- C5 counterexample: with general pool `[N, A]`, narrator voice `N` and two
characters — pool size 2 ≥ 2 characters — both characters resolve through the
random fallback, yet both receive voice `A`: removing the narrator voice from
the candidates leaves a single voice, the narrowing to unassigned voices
empties for the second character, and the code falls back to repeats. -/
theorem C5_counterexample :
    (get_voice_for_segment cfgC5 (initState [0, 0]) segC5a).1 = "A" ∧
    (get_voice_for_segment cfgC5
        (get_voice_for_segment cfgC5 (initState [0, 0]) segC5a).2 segC5b).1 = "A" ∧
    cfgC5.character_voices.available_chinese_voices.length = 2 := by
  decide

/-- C5 amended: distinctness on the random fallback path is best-effort — the
second character's voice differs from every previously assigned voice only
when the narrowed candidate set (general pool minus the narrator voice minus
already-assigned voices) is still non-empty at its assignment; pool size
alone does not guarantee this once the narrator voice occupies a pool slot. -/
theorem C5_random_fallback_distinct (cfg : TTSConfig) (st : EngineState) (seg : Segment)
    (n1 n2 v1 : String)
    (h1 : seg.type ≠ "narrator") (hn : seg.character.getD "default" = n2)
    (hprev : lookupStr st.assignments n1 = some v1)
    (hov : overrideVoice cfg n2 = none)
    (hcache : lookupStr st.assignments n2 = none)
    (hm : cfg.character_voices.male_voices = [])
    (hf : cfg.character_voices.female_voices = [])
    (hra : cfg.character_voices.random_assignment = true)
    (hav : (cfg.character_voices.available_chinese_voices.filter
        (fun v => decide (v ≠ cfg.narrator_voice))).filter
        (fun v => decide (v ∉ st.assignments.map Prod.snd)) ≠ []) :
    (get_voice_for_segment cfg st seg).1 ≠ v1 := by
  rw [get_voice_random_path cfg st seg n2 h1 hn hov hcache hm hf]
  have hst : (get_character_gender cfg st n2 (some seg)).2.assignments = st.assignments :=
    gender_assignments cfg st n2 (some seg)
  have hfresh := randomOrDefault_fresh cfg (get_character_gender cfg st n2 (some seg)).2 n2
    hra (by rw [hst]; exact hav)
  rw [hst] at hfresh
  intro he
  exact hfresh (he ▸ lookupStr_mem_snd st.assignments n1 v1 hprev)

/-- Witness for the amended C5: with pool `[N, A, B]` and voice `A` already
assigned to 甲, the character 乙 cannot receive `A`. -/
theorem C5_random_fallback_distinct_witness :
    (get_voice_for_segment cfgC5w stC5w segC5b).1 ≠ "A" :=
  C5_random_fallback_distinct cfgC5w stC5w segC5b "甲" "乙" "A"
    (by decide) rfl rfl rfl rfl rfl rfl rfl (by decide)

/-- C6: `get_pitch_for_segment` follows the specified pitch rule — the
configured base pitch for every segment when gender pitch adjustment is
disabled, and for character segments when enabled the comparison of the
voice's pool classification against the character's inferred gender selects
base, male, female or default pitch. -/
theorem C6_pitch_rule (cfg : TTSConfig) (st : EngineState) (seg : Segment)
    (voice : String) :
    (cfg.gpa_enabled = false → (get_pitch_for_segment cfg st seg voice).1 = cfg.pitch) ∧
    (cfg.gpa_enabled = true → seg.type = "character" →
      (get_pitch_for_segment cfg st seg voice).1 =
        spec_character_pitch cfg
          (get_character_gender cfg st (seg.character.getD "default") (some seg)).1
          voice) := by
  constructor
  · intro h
    unfold get_pitch_for_segment
    rw [if_pos h]
  · intro he ht
    unfold get_pitch_for_segment spec_character_pitch spec_voice_gender_class
    rw [he, ht]
    dsimp only
    rw [if_neg (by decide : ¬(true = false)),
      if_neg (by decide : ¬("character" = "narrator"))]
    split_ifs <;> rfl

/-- Witness for C6: base pitch under the disabled configuration, and the
specified mismatch pitch for the female character 小芳 on a male voice under
the default configuration. -/
theorem C6_pitch_rule_witness :
    (get_pitch_for_segment cfgC6d (initState []) segC6 "zh-CN-YunxiNeural").1 =
      cfgC6d.pitch ∧
    (get_pitch_for_segment defaultTTSConfig (initState []) segC6 "zh-CN-YunxiNeural").1 =
      spec_character_pitch defaultTTSConfig
        (get_character_gender defaultTTSConfig (initState [])
          (segC6.character.getD "default") (some segC6)).1 "zh-CN-YunxiNeural" :=
  ⟨(C6_pitch_rule cfgC6d (initState []) segC6 "zh-CN-YunxiNeural").1 rfl,
   (C6_pitch_rule defaultTTSConfig (initState []) segC6 "zh-CN-YunxiNeural").2 rfl rfl⟩

theorem synthAllGo_all_fail (cfg : TTSConfig) (ok : Nat → Bool)
    (h : ∀ i, ok i = false) (segs : List Segment) :
    ∀ (i : Nat) (st : EngineState), (synthAllGo cfg ok i st segs).1 = [] := by
  induction segs with
  | nil => intro i st; rfl
  | cons seg rest ih =>
    intro i st
    unfold synthAllGo
    dsimp only
    rw [h i]
    simp only [Bool.false_eq_true, if_false]
    exact ih (i + 1) _

/-- C8: when every synthesis call fails, `synthesize_all` produces no
artifacts, the run reports failure and the merge step is never invoked, so no
merged output file is produced. -/
theorem C8_no_audio_failure (cfg : TTSConfig) (ok : Nat → Bool) (rng : List Nat)
    (segs : List Segment) (mergeOk : Bool) (h : ∀ i, ok i = false) :
    convert cfg ok rng segs mergeOk = (false, false) := by
  unfold convert synthesize_all
  dsimp only
  rw [synthAllGo_all_fail cfg ok h segs 0 (initState rng)]
  rfl

/-- Witness for C8: a one-segment run whose synthesis call fails reports
failure without invoking the merge, even though the muxer would succeed. -/
theorem C8_no_audio_failure_witness :
    convert defaultTTSConfig (fun _ => false) [] [segC2] true = (false, false) :=
  C8_no_audio_failure defaultTTSConfig (fun _ => false) [] [segC2] true (fun _ => rfl)

end BookToAudiobook
